import Mathlib

/-!
Shallow embedding of `src/source/Core/Threads/PIDThread.cpp` (IronOS PID
control task).

Machine integers are modelled as `Nat` / `Int` with explicit wrapping where
the C types wrap (`uint32_t` ticks and temperatures, `int16_t` casts inside
the runaway detector).  Signed `int32_t` power arithmetic is modelled as
unbounded `Int`: signed overflow is undefined behaviour in C++, so no wrapped
semantics exists to be faithful to.

External collaborators (ADC, thermo model, settings store, heater driver,
watchdog, tick source) are modelled as per-cycle inputs; the functions the
task calls on the heater driver and watchdog are recorded as an event trace
so that ordering claims can be stated.
-/

namespace IronOS

/-- Wrap a value into `uint32_t` range (`TickType_t`, `uint32_t`). -/
def wrap32 (n : Nat) : Nat := n % 4294967296

/-- Truncate an `int` value into `int16_t` (two's-complement wrap). -/
def toInt16 (x : Int) : Int := (x + 32768) % 65536 - 32768

/-- Reinterpret a `uint32_t` value as `int32_t`. -/
def u32toI32 (n : Nat) : Int := if n < 2147483648 then (n : Int) else (n : Int) - 4294967296

/-- Convert an `int16_t` value to `uint16_t` (two's-complement wrap). -/
def toUInt16 (x : Int) : Nat := (x % 65536).toNat

/-- FreeRTOS `TickType_t` subtraction: `uint32_t` wraparound difference.
    Arguments are assumed already in `uint32_t` range for the first operand;
    the second is wrapped explicitly as a stored tick value. -/
def tickSub (a b : Nat) : Nat := wrap32 (a + 4294967296 - wrap32 b)

/-- Modelled from the spec: the `history` rolling-average template of
    `history.hpp`, which is not under `src/` (only its use in
    `PIDThread.cpp` is).  Per the spec (section 4.2): fixed-capacity circular
    buffer plus running sum; `update` evicts the oldest retained sample,
    inserts the new one and adjusts the sum in O(1); `average` is
    `sum / capacity` with the C++ truncating division; initial state is
    all-zero samples and zero sum. -/
structure history where
  buf : List Int
  loc : Nat
  sum : Int
  deriving DecidableEq, Repr

/-- One `update` step of the rolling history: the slot at `loc` (the oldest
    sample) is replaced and the running sum adjusted. -/
def history.update (h : history) (v : Int) : history :=
  { buf := h.buf.set h.loc v
    loc := (h.loc + 1) % h.buf.length
    sum := h.sum - h.buf.getD h.loc 0 + v }

/-- Rolling average: running sum divided by capacity, truncating toward zero
    as C++ integer division does. -/
def history.average (h : history) : Int := h.sum.tdiv h.buf.length

/-- The all-zero initial history (`{{0}, 0, 0}` at line 35 of the source). -/
def history.init (n : Nat) : history := ⟨List.replicate n 0, 0, 0⟩

/-- Compile-time configuration and the external feed-forward model.
    `THERMAL_RUNAWAY_TEMP_C`, `THERMAL_RUNAWAY_TIME_SEC`, `TICKS_SECOND`,
    `TICKS_100MS` and `SLEW_LIMIT` are build-configuration constants not
    defined in this translation unit; `tempToX10Watts` is the external
    proportional / feed-forward model from `power.hpp`. `SLEW_ENABLED`
    models whether the `#ifdef SLEW_LIMIT` block is compiled in. -/
structure Config where
  THERMAL_RUNAWAY_TEMP_C : Int
  THERMAL_RUNAWAY_TIME_SEC : Nat
  TICKS_SECOND : Nat
  TICKS_100MS : Nat
  SLEW_ENABLED : Bool
  SLEW_LIMIT : Int
  tempToX10Watts : Int → Int

/-- The settings values read through `getSettingValue` (each a `uint16_t`). -/
structure Settings where
  KeepAwakePulse : Nat
  KeepAwakePulseWait : Nat
  KeepAwakePulseDuration : Nat
  PowerLimit : Nat
  deriving DecidableEq, Repr

/-- The persistent state of `detectThermalRunaway`: the two static locals
    (`tipTempCRunawayTemp : uint16_t`, `runawaylastChangeTime : TickType_t`)
    together with the global sticky flag `heaterThermalRunaway`. -/
structure RunawayState where
  tipTempCRunawayTemp : Nat
  runawaylastChangeTime : Nat
  heaterThermalRunaway : Bool
  deriving DecidableEq, Repr

/-- The persistent state of `setOutputx10WattsViaFilters`: the pulse-window
    statics and (when the slew limiter is compiled in) `x10WattsOutLast`. -/
structure OutputState where
  lastPowerPulseStart : Nat
  lastPowerPulseEnd : Nat
  x10WattsOutLast : Int
  deriving DecidableEq, Repr

/-- All state the control task persists across cycles. -/
structure PIDState where
  tempError : history
  runaway : RunawayState
  out : OutputState
  deriving DecidableEq, Repr

/-- The externally sourced values one loop iteration reads:
    the notification result, `getTipInC(true)`, `getTipMaxInC()`, the global
    target `currentTempTargetDegC`, `x10WattHistory.average()` (the external
    power history of `power.hpp`), `getTipRawTemp(0)`, `xTaskGetTickCount()`
    (the ticks within one cycle are modelled as a single value), the settings
    and the global `powerSupplyWattageLimit`. -/
structure CycleInput where
  notified : Bool
  currentTipTempInC : Nat
  tipMaxInC : Nat
  target : Nat
  x10WattHistoryAvg : Int
  rawTemp : Nat
  now : Nat
  settings : Settings
  powerSupplyWattageLimit : Int
  deriving Repr

/-- Calls the task makes on the heater driver and the watchdog, in order. -/
inductive OutEvent where
  | setTipX10Watts (w : Int)
  | setTipPWM (w : Int)
  | resetWatchdog
  deriving DecidableEq, Repr

/-- The `delta` computation of `detectThermalRunaway` (lines 120-123):
    `int16_t delta = (int16_t)currentTipTempInC - (int16_t)tipTempCRunawayTemp`
    (the `int` difference truncated back into `int16_t`), then negated in
    place when negative (again through the `int16_t` assignment). -/
def runawayDelta (currentTipTempInC : Int) (refTemp : Nat) : Int :=
  let delta0 : Int := toInt16 (currentTipTempInC - toInt16 (refTemp : Int))
  toInt16 (if delta0 < 0 then -delta0 else delta0)

/-- Function `detectThermalRunaway` (lines 112-138).  `currentTipTempInC` is the
    `int16_t` parameter value (the caller's `uint32_t` is converted at the
    call boundary); `tError` is the `int` parameter. -/
def detectThermalRunaway (cfg : Config) (currentTipTempInC : Int) (tError : Int)
    (now : Nat) (s : RunawayState) : RunawayState :=
  if tError > cfg.THERMAL_RUNAWAY_TEMP_C then
    if runawayDelta currentTipTempInC s.tipTempCRunawayTemp > cfg.THERMAL_RUNAWAY_TEMP_C then
      { s with tipTempCRunawayTemp := toUInt16 currentTipTempInC
               runawaylastChangeTime := now }
    else
      if tickSub now s.runawaylastChangeTime > cfg.THERMAL_RUNAWAY_TIME_SEC * cfg.TICKS_SECOND then
        { s with heaterThermalRunaway := true }
      else s
  else
    { s with tipTempCRunawayTemp := toUInt16 currentTipTempInC
             runawaylastChangeTime := now }

/-- Keep-awake pulse stage (lines 147-160): window bookkeeping plus the
    conditional floor at the configured pulse level. -/
def pulseStage (cfg : Config) (set : Settings) (now : Nat) (st : OutputState) (x : Int) :
    OutputState × Int :=
  if set.KeepAwakePulse ≠ 0 then
    let powerPulseWait := wrap32 (25 * cfg.TICKS_100MS * set.KeepAwakePulseWait)
    let st1 :=
      if tickSub now st.lastPowerPulseStart > powerPulseWait then
        let powerPulseDuration := wrap32 (5 * cfg.TICKS_100MS / 2 * set.KeepAwakePulseDuration)
        { st with lastPowerPulseStart := now
                  lastPowerPulseEnd := wrap32 (now + powerPulseDuration) }
      else st
    if x < (set.KeepAwakePulse : Int) ∧ now < st1.lastPowerPulseEnd then
      (st1, (set.KeepAwakePulse : Int))
    else (st1, x)
  else (st, x)

/-- The two ceiling stages (lines 169-174): user-configured power limit,
    then detected supply wattage limit, each gated on being nonzero. -/
def applyPowerLimits (set : Settings) (supply : Int) (x : Int) : Int :=
  let x1 := if set.PowerLimit ≠ 0 ∧ x > (set.PowerLimit : Int) * 10
            then (set.PowerLimit : Int) * 10 else x
  if supply ≠ 0 ∧ x1 > supply * 10 then supply * 10 else x1

/-- The optional slew-rate limiter (lines 175-183, under `#ifdef SLEW_LIMIT`):
    bound the rise from the previous committed value, then floor at 0.
    When not compiled in, the value and state pass through untouched. -/
def slewStage (cfg : Config) (st : OutputState) (x : Int) : OutputState × Int :=
  if cfg.SLEW_ENABLED then
    let a := if x - st.x10WattsOutLast > cfg.SLEW_LIMIT then st.x10WattsOutLast + cfg.SLEW_LIMIT else x
    let b := if a < 0 then 0 else a
    ({ st with x10WattsOutLast := b }, b)
  else (st, x)

/-- Function `setOutputx10WattsViaFilters` (lines 140-189): pulse floor, ADC-saturation
    cutoff, runaway cutoff, the two ceilings, optional slew, then the commit
    to the heater driver followed by the watchdog reset (as a trace). -/
def setOutputx10WattsViaFilters (cfg : Config) (set : Settings) (supply : Int)
    (flag : Bool) (rawTemp : Nat) (now : Nat) (st : OutputState) (x10WattsOut : Int) :
    OutputState × List OutEvent :=
  let p := pulseStage cfg set now st x10WattsOut
  let x2 := if rawTemp > 0x7FFF - 32 then 0 else p.2
  let x3 := if flag then 0 else x2
  let x4 := applyPowerLimits set supply x3
  let r := slewStage cfg p.1 x4
  (r.1, [OutEvent.setTipX10Watts r.2, OutEvent.resetWatchdog])

/-- Target clamping (lines 54-63): cap at 450 °C, then at the tip's
    max-measurable temperature. -/
def clampedTarget (inp : CycleInput) : Nat :=
  let t1 := if inp.target > 450 then 450 else inp.target
  if t1 > inp.tipMaxInC then inp.tipMaxInC else t1

/-- The raw error `PIDTempTarget - currentTipTempInC + 1` (line 69): computed
    in `uint32_t` arithmetic and converted to `int32_t`. -/
def tErrorRaw (inp : CycleInput) : Int :=
  u32toI32 (wrap32 (clampedTarget inp + (4294967296 - wrap32 inp.currentTipTempInC) + 1))

/-- The saturated error (lines 70-71): clamped into the `int16_t` range. -/
def tErrorOf (inp : CycleInput) : Int :=
  let e1 := if tErrorRaw inp > 32767 then 32767 else tErrorRaw inp
  if e1 < -32768 then -32768 else e1

/-- The body of the notified branch (lines 50-103): requested power before the
    clamp chain, the updated error history, and the updated runaway state. -/
def pidCycleCore (cfg : Config) (inp : CycleInput) (s : PIDState) :
    Int × history × RunawayState :=
  if inp.target ≠ 0 then
    let tError := tErrorOf inp
    (cfg.tempToX10Watts tError + inp.x10WattHistoryAvg,
     s.tempError.update tError,
     detectThermalRunaway cfg (toInt16 (inp.currentTipTempInC : Int)) tError inp.now s.runaway)
  else
    (0, s.tempError,
     detectThermalRunaway cfg (toInt16 (inp.currentTipTempInC : Int)) 0 inp.now s.runaway)

/-- One iteration of the `for (;;)` loop (lines 45-109): on notification run
    the controller and the output filter chain; on timeout command zero PWM
    and touch nothing else. -/
def pidCycle (cfg : Config) (inp : CycleInput) (s : PIDState) :
    PIDState × List OutEvent :=
  if inp.notified then
    let core := pidCycleCore cfg inp s
    let o := setOutputx10WattsViaFilters cfg inp.settings inp.powerSupplyWattageLimit
        core.2.2.heaterThermalRunaway inp.rawTemp inp.now s.out core.1
    ({ tempError := core.2.1, runaway := core.2.2, out := o.1 }, o.2)
  else
    (s, [OutEvent.setTipPWM 0])

/-- The power value committed through `setTipX10Watts` in a trace, if any. -/
def committedX10Watts : List OutEvent → Option Int
  | [] => none
  | OutEvent.setTipX10Watts w :: _ => some w
  | _ :: rest => committedX10Watts rest

/-- Fold the runaway detector over a list of `(currentTemp, tError, now)`
    observations. -/
def detectRun (cfg : Config) (s : RunawayState) : List (Int × Int × Nat) → RunawayState
  | [] => s
  | (c, e, n) :: rest => detectRun cfg (detectThermalRunaway cfg c e n s) rest

/-- A run of detector observations in which the error stays above the runaway
    threshold but the temperature moves by more than the threshold relative to
    the (continually reset) baseline at every step. -/
def risingChain (cfg : Config) (ref : Int) : List (Int × Int × Nat) → Prop
  | [] => True
  | (c, e, _) :: rest =>
      e > cfg.THERMAL_RUNAWAY_TEMP_C ∧ 0 ≤ c ∧ c < 32768 ∧
      |c - ref| > cfg.THERMAL_RUNAWAY_TEMP_C ∧
      risingChain cfg c rest

/-! Concrete instantiations used by witnesses and counterexamples.  The
configuration constants mirror a typical IronOS build; the feed-forward
model is instantiated with the identity, which is legitimate because the
claims quantify over the external model. -/

/-- A concrete configuration for closed witness statements. -/
def testCfg : Config :=
  { THERMAL_RUNAWAY_TEMP_C := 20
    THERMAL_RUNAWAY_TIME_SEC := 20
    TICKS_SECOND := 1000
    TICKS_100MS := 100
    SLEW_ENABLED := false
    SLEW_LIMIT := 50
    tempToX10Watts := fun e => e }

/-- The test configuration with the slew limiter compiled in. -/
def testCfgSlew : Config := { testCfg with SLEW_ENABLED := true }

/-- Settings with every optional feature off. -/
def offSettings : Settings :=
  { KeepAwakePulse := 0, KeepAwakePulseWait := 0, KeepAwakePulseDuration := 0, PowerLimit := 0 }

/-- A concrete soldering cycle: target 300 °C, tip at 200 °C, power-history
    average 100 (tenths of a watt), all clamps inert. -/
def c2Inp : CycleInput :=
  { notified := true, currentTipTempInC := 200, tipMaxInC := 500, target := 300,
    x10WattHistoryAvg := 100, rawTemp := 0, now := 0,
    settings := offSettings, powerSupplyWattageLimit := 0 }

/-- A concrete task state: fresh 4-sample history, fresh runaway baseline,
    fresh pulse window. -/
def c2State : PIDState :=
  { tempError := history.init 4
    runaway := { tipTempCRunawayTemp := 0, runawaylastChangeTime := 0, heaterThermalRunaway := false }
    out := { lastPowerPulseStart := 0, lastPowerPulseEnd := 0, x10WattsOutLast := 0 } }

/-- The concrete task state with the sticky runaway flag already set. -/
def runawayState : PIDState :=
  { c2State with runaway := { c2State.runaway with heaterThermalRunaway := true } }

/-! Helper lemmas shared between the claims. -/

/-- The detector never clears the sticky flag: each of its branches either
    sets the flag or leaves it alone. -/
theorem detect_flag_mono (cfg : Config) (c e : Int) (n : Nat) (s : RunawayState)
    (h : s.heaterThermalRunaway = true) :
    (detectThermalRunaway cfg c e n s).heaterThermalRunaway = true := by
  simp only [detectThermalRunaway]
  split_ifs <;> simp [h]

/-- Both ceiling stages leave a zero request at zero when the supply limit is
    nonnegative: each only fires on values strictly above a nonnegative bound. -/
theorem applyPowerLimits_zero (set : Settings) (supply : Int) (h : 0 ≤ supply) :
    applyPowerLimits set supply 0 = 0 := by
  have hPL : (0 : Int) ≤ (set.PowerLimit : Int) * 10 := by positivity
  simp only [applyPowerLimits]
  split_ifs <;> omega

/-- The slew stage maps a zero request to a zero commit: the cap can only
    replace 0 by a negative value, which the floor then returns to 0. -/
theorem slewStage_zero (cfg : Config) (st : OutputState) :
    (slewStage cfg st 0).2 = 0 := by
  unfold slewStage
  split_ifs <;> simp_all
  omega

/-- With the sticky flag set and a nonnegative supply limit, the output
    filter chain commits exactly zero and then resets the watchdog, whatever
    was requested. -/
theorem setOutput_flag_true (cfg : Config) (set : Settings) (supply : Int)
    (rawTemp now : Nat) (st : OutputState) (x : Int) (hsupply : 0 ≤ supply) :
    (setOutputx10WattsViaFilters cfg set supply true rawTemp now st x).2 =
      [OutEvent.setTipX10Watts 0, OutEvent.resetWatchdog] := by
  simp only [setOutputx10WattsViaFilters, if_true]
  rw [applyPowerLimits_zero set supply hsupply, slewStage_zero]

/-- The whole cycle core preserves a set sticky flag. -/
theorem pidCycleCore_flag_mono (cfg : Config) (inp : CycleInput) (s : PIDState)
    (h : s.runaway.heaterThermalRunaway = true) :
    (pidCycleCore cfg inp s).2.2.heaterThermalRunaway = true := by
  simp only [pidCycleCore]
  split_ifs <;> exact detect_flag_mono _ _ _ _ _ h

/-- C1: once the sticky runaway flag is true, the committed heater power on
    every subsequent successful cycle is 0 (for every request and setting
    configuration, given a nonnegative supply wattage limit), and no cycle of
    the control task ever sets the flag back to false. -/
theorem runaway_flag_sticky_and_forces_zero (cfg : Config) (inp : CycleInput) (s : PIDState)
    (hflag : s.runaway.heaterThermalRunaway = true)
    (hsupply : 0 ≤ inp.powerSupplyWattageLimit) :
    (pidCycle cfg inp s).1.runaway.heaterThermalRunaway = true ∧
    (inp.notified = true →
      committedX10Watts (pidCycle cfg inp s).2 = some 0) := by
  constructor
  · cases hn : inp.notified
    · simp [pidCycle, hn, hflag]
    · simp only [pidCycle, hn, if_true]
      exact pidCycleCore_flag_mono cfg inp s hflag
  · intro hn
    simp only [pidCycle, hn, if_true]
    rw [pidCycleCore_flag_mono cfg inp s hflag,
        setOutput_flag_true _ _ _ _ _ _ _ hsupply]
    rfl

/-- C1 witness: a concrete cycle starting with the flag set commits zero. -/
theorem runaway_flag_sticky_witness :
    committedX10Watts (pidCycle testCfg c2Inp runawayState).2 = some 0 :=
  (runaway_flag_sticky_and_forces_zero testCfg c2Inp runawayState rfl (by decide)).2 rfl

/-- C2 (amended): for every cycle with a nonzero target, the integral term
    added to the requested power is `x10WattHistory.average()`, the rolling
    average of the external power history from `power.hpp` — not the average
    of the temperature-error filter; the error filter is updated with the
    saturated error each cycle but its average is never read. -/
theorem integral_term_is_power_history_average (cfg : Config) (inp : CycleInput) (s : PIDState)
    (ht : inp.target ≠ 0) :
    (pidCycleCore cfg inp s).1 = cfg.tempToX10Watts (tErrorOf inp) + inp.x10WattHistoryAvg ∧
    (pidCycleCore cfg inp s).2.1 = s.tempError.update (tErrorOf inp) := by
  simp [pidCycleCore, ht]

/-- C2 witness: the amended decomposition holds on a concrete cycle. -/
theorem integral_term_witness :
    (pidCycleCore testCfg c2Inp c2State).1 =
      testCfg.tempToX10Watts (tErrorOf c2Inp) + c2Inp.x10WattHistoryAvg :=
  (integral_term_is_power_history_average testCfg c2Inp c2State (by decide)).1

/-- C2 counterexample: on a concrete cycle (target 300, tip 200, power-history
    average 100, all clamps inert) the requested-and-committed power is 201,
    while feed-forward plus the error filter's own rolling average would be
    126, so the integral term does not equal the error filter's average. -/
theorem integral_term_not_error_filter_average :
    committedX10Watts (pidCycle testCfg c2Inp c2State).2 = some 201 ∧
    testCfg.tempToX10Watts (tErrorOf c2Inp) +
      (pidCycle testCfg c2Inp c2State).1.tempError.average = 126 ∧
    (201 : Int) ≠ 126 :=
  ⟨by decide, by decide, by decide⟩

/-- C3: when the target read at the start of a cycle is 0, the requested
    power entering the clamp chain is 0, whatever the tip temperature, and
    the runaway detector still runs that cycle with error 0. -/
theorem zero_target_zero_request (cfg : Config) (inp : CycleInput) (s : PIDState)
    (hn : inp.notified = true) (ht : inp.target = 0) :
    (pidCycleCore cfg inp s).1 = 0 ∧
    (pidCycle cfg inp s).1.runaway =
      detectThermalRunaway cfg (toInt16 (inp.currentTipTempInC : Int)) 0 inp.now s.runaway := by
  constructor
  · simp [pidCycleCore, ht]
  · simp [pidCycle, hn, pidCycleCore, ht]

/-- An idle cycle: target 0, everything else as in the soldering cycle. -/
def idleInp : CycleInput := { c2Inp with target := 0 }

/-- C3 witness: the zero-target cycle requests zero power concretely. -/
theorem zero_target_witness : (pidCycleCore testCfg idleInp c2State).1 = 0 :=
  (zero_target_zero_request testCfg idleInp c2State rfl rfl).1

/-- In the realistic temperature range (both values below 2^15) the detector's
    wrapped `int16_t` delta is exactly the absolute temperature difference. -/
theorem runawayDelta_abs (c : Int) (ref : Nat) (hc0 : 0 ≤ c) (hc : c < 32768)
    (hr : ref < 32768) : runawayDelta c ref = |c - (ref : Int)| := by
  have h1 : toInt16 (ref : Int) = (ref : Int) := by unfold toInt16; omega
  simp only [runawayDelta, h1]
  have h2 : toInt16 (c - (ref : Int)) = c - (ref : Int) := by unfold toInt16; omega
  rw [h2]
  rcases le_or_lt 0 (c - (ref : Int)) with h | h
  · rw [if_neg (by omega), abs_of_nonneg h]
    exact h2
  · rw [if_pos h, abs_of_neg h]
    unfold toInt16
    omega

/-- With monotone in-range ticks, the wrapped tick difference is plain
    subtraction. -/
theorem tickSub_eq (a b : Nat) (h : b ≤ a) (ha : a < 4294967296) :
    tickSub a b = a - b := by
  unfold tickSub wrap32
  omega

/-- A nonnegative `int16_t`-range value converts to `uint16_t` unchanged. -/
theorem toUInt16_eq_toNat (c : Int) (hc0 : 0 ≤ c) (hc : c < 32768) :
    toUInt16 c = c.toNat := by
  unfold toUInt16
  omega

/-- Whenever the error is at or below the threshold, or the temperature has
    moved by more than the threshold, the detector resets its baseline to the
    current temperature and the current tick and leaves the flag alone. -/
theorem detect_reset_step (cfg : Config) (c e : Int) (n : Nat) (s : RunawayState)
    (hc0 : 0 ≤ c) (hc : c < 32768) (hr : s.tipTempCRunawayTemp < 32768)
    (h : e ≤ cfg.THERMAL_RUNAWAY_TEMP_C ∨
         cfg.THERMAL_RUNAWAY_TEMP_C < |c - (s.tipTempCRunawayTemp : Int)|) :
    detectThermalRunaway cfg c e n s =
      { s with tipTempCRunawayTemp := c.toNat, runawaylastChangeTime := n } := by
  have hdelta := runawayDelta_abs c s.tipTempCRunawayTemp hc0 hc hr
  have htoU := toUInt16_eq_toNat c hc0 hc
  simp only [detectThermalRunaway, hdelta, htoU]
  by_cases he : e > cfg.THERMAL_RUNAWAY_TEMP_C
  · have hd : cfg.THERMAL_RUNAWAY_TEMP_C < |c - (s.tipTempCRunawayTemp : Int)| := by
      rcases h with h | h
      · omega
      · exact h
    rw [if_pos he, if_pos hd]
  · rw [if_neg he]

/-- Along any run in which the error stays above the threshold but the
    temperature keeps moving by more than the threshold, the flag never
    becomes set: every step takes the baseline-reset branch. -/
theorem detectRun_flag_false (cfg : Config) (l : List (Int × Int × Nat)) :
    ∀ s : RunawayState, s.heaterThermalRunaway = false →
      s.tipTempCRunawayTemp < 32768 →
      risingChain cfg (s.tipTempCRunawayTemp : Int) l →
      (detectRun cfg s l).heaterThermalRunaway = false := by
  induction l with
  | nil =>
      intro s hf _ _
      exact hf
  | cons p rest ih =>
      obtain ⟨c, e, n⟩ := p
      intro s hf hr hchain
      obtain ⟨he, hc0, hc, hd, hrest⟩ := hchain
      rw [detectRun, detect_reset_step cfg c e n s hc0 hc hr (Or.inr hd)]
      have hcn : ((c.toNat : Nat) : Int) = c := Int.toNat_of_nonneg hc0
      apply ih
      · exact hf
      · show c.toNat < 32768
        omega
      · show risingChain cfg ((c.toNat : Nat) : Int) rest
        rw [hcn]
        exact hrest

/-- C4: the detector sets the sticky flag exactly when the error exceeds the
    threshold, the temperature has moved by at most the threshold from the
    baseline, and more than the time limit has elapsed since the baseline was
    last reset; when the error is at or below the threshold, or the
    temperature moved by more than the threshold, it instead resets the
    baseline temperature and timestamp; consequently a run with the error
    above threshold but the temperature always moving by more than the
    threshold keeps the flag false indefinitely.  (Stated in the realistic
    range where the `int16_t`/`uint16_t` casts are lossless and ticks are
    monotone and unwrapped.) -/
theorem runaway_detector_transition (cfg : Config) (s : RunawayState)
    (curTemp tError : Int) (now : Nat)
    (hc0 : 0 ≤ curTemp) (hc : curTemp < 32768)
    (hr : s.tipTempCRunawayTemp < 32768)
    (ht : s.runawaylastChangeTime ≤ now) (hn : now < 4294967296)
    (hflag : s.heaterThermalRunaway = false) :
    ((detectThermalRunaway cfg curTemp tError now s).heaterThermalRunaway = true ↔
      tError > cfg.THERMAL_RUNAWAY_TEMP_C ∧
      |curTemp - (s.tipTempCRunawayTemp : Int)| ≤ cfg.THERMAL_RUNAWAY_TEMP_C ∧
      now - s.runawaylastChangeTime > cfg.THERMAL_RUNAWAY_TIME_SEC * cfg.TICKS_SECOND) ∧
    ((tError ≤ cfg.THERMAL_RUNAWAY_TEMP_C ∨
      |curTemp - (s.tipTempCRunawayTemp : Int)| > cfg.THERMAL_RUNAWAY_TEMP_C) →
      (detectThermalRunaway cfg curTemp tError now s).tipTempCRunawayTemp = curTemp.toNat ∧
      (detectThermalRunaway cfg curTemp tError now s).runawaylastChangeTime = now) ∧
    (∀ l, risingChain cfg (s.tipTempCRunawayTemp : Int) l →
      (detectRun cfg s l).heaterThermalRunaway = false) := by
  have hdelta := runawayDelta_abs curTemp s.tipTempCRunawayTemp hc0 hc hr
  have htick := tickSub_eq now s.runawaylastChangeTime ht hn
  refine ⟨?_, ?_, fun l hl => detectRun_flag_false cfg l s hflag hr hl⟩
  · simp only [detectThermalRunaway, hdelta, htick]
    split_ifs with h1 h2 h3 <;> simp [hflag] <;> omega
  · intro h
    have h' : tError ≤ cfg.THERMAL_RUNAWAY_TEMP_C ∨
        cfg.THERMAL_RUNAWAY_TEMP_C < |curTemp - (s.tipTempCRunawayTemp : Int)| := by
      rcases h with h | h
      · exact Or.inl h
      · exact Or.inr h
    rw [detect_reset_step cfg curTemp tError now s hc0 hc hr h']
    exact ⟨rfl, rfl⟩

/-- C4 witness: a concrete healthy-progress step (error 30 above threshold 20,
    temperature 150 against baseline 100) resets the baseline. -/
theorem runaway_detector_witness :
    (detectThermalRunaway testCfg 150 30 30000 ⟨100, 0, false⟩).tipTempCRunawayTemp =
      (150 : Int).toNat ∧
    (detectThermalRunaway testCfg 150 30 30000 ⟨100, 0, false⟩).runawaylastChangeTime = 30000 :=
  (runaway_detector_transition testCfg ⟨100, 0, false⟩ 150 30 30000 (by decide) (by decide)
      (by decide) (by decide) (by decide) rfl).2.1 (Or.inr (by decide))

/-- Both ceiling stages leave a nonpositive request unchanged when the supply
    limit is nonnegative: each only fires on values strictly above a
    nonnegative bound. -/
theorem applyPowerLimits_nonpos (set : Settings) (supply x : Int)
    (hx : x ≤ 0) (hsupply : 0 ≤ supply) :
    applyPowerLimits set supply x = x := by
  have hPL : (0 : Int) ≤ (set.PowerLimit : Int) * 10 := by positivity
  simp only [applyPowerLimits]
  split_ifs <;> omega

/-- When compiled in, the slew stage never commits a negative value: it ends
    with the floor at 0. -/
theorem slewStage_nonneg (cfg : Config) (st : OutputState) (x : Int)
    (h : cfg.SLEW_ENABLED = true) : 0 ≤ (slewStage cfg st x).2 := by
  simp only [slewStage, h, if_true]
  split_ifs <;> omega

/-- C5: whatever power was requested, if the raw tip ADC reading is within 32
    counts of full-scale 0x7FFF and the runaway flag is false (and the supply
    wattage limit is nonnegative), the power committed that cycle is 0. -/
theorem adc_saturation_forces_zero (cfg : Config) (set : Settings) (supply : Int)
    (flag : Bool) (rawTemp now : Nat) (st : OutputState) (x10 : Int)
    (hflag : flag = false) (hraw : 0x7FFF - 32 < rawTemp) (hsupply : 0 ≤ supply) :
    committedX10Watts
      (setOutputx10WattsViaFilters cfg set supply flag rawTemp now st x10).2 = some 0 := by
  simp only [setOutputx10WattsViaFilters, if_pos hraw, ite_self]
  rw [applyPowerLimits_zero set supply hsupply, slewStage_zero]
  rfl

/-- C5 witness: raw reading 0x7FFF − 10 zeroes a positive 50 W request. -/
theorem adc_saturation_witness :
    committedX10Watts (setOutputx10WattsViaFilters testCfg offSettings 0 false 32757 0
      c2State.out 500).2 = some 0 :=
  adc_saturation_forces_zero testCfg offSettings 0 false 32757 0 c2State.out 500 rfl
    (by decide) (by decide)

/-- C6: when both the configured power limit and the supply wattage limit are
    nonzero and the request exceeds both (in tenths of a watt), the value
    after the two ceiling stages is the smaller limit times 10, never the
    larger. -/
theorem ceilings_commit_min (set : Settings) (supply x : Int)
    (hPL : set.PowerLimit ≠ 0) (hsup : supply ≠ 0)
    (h1 : x > (set.PowerLimit : Int) * 10) (h2 : x > supply * 10) :
    applyPowerLimits set supply x = min ((set.PowerLimit : Int) * 10) (supply * 10) := by
  simp only [applyPowerLimits,
    if_pos (show set.PowerLimit ≠ 0 ∧ x > (set.PowerLimit : Int) * 10 from ⟨hPL, h1⟩)]
  split_ifs with h3
  · omega
  · rcases not_and_or.1 h3 with h | h
    · exact absurd (not_not.1 h) hsup
    · omega

/-- Settings with a 6 W configured power limit. -/
def limitSettings : Settings := { offSettings with PowerLimit := 6 }

/-- C6 witness: configured limit 6 W, supply limit 2 W, request 10 W: the
    ceilings commit 2 W (20 tenths), the smaller. -/
theorem ceilings_commit_min_witness : applyPowerLimits limitSettings 2 100 = 20 :=
  (ceilings_commit_min limitSettings 2 100 (by decide) (by decide) (by decide)
    (by decide)).trans (by decide)

/-- C7: for a nonzero target, the effective target is the minimum of the
    requested target, 450 °C, and the tip's max-measurable temperature. -/
theorem clamped_target_min (inp : CycleInput) (ht : inp.target ≠ 0) :
    clampedTarget inp = min inp.target (min 450 inp.tipMaxInC) := by
  simp only [clampedTarget]
  split_ifs <;> omega

/-- A cycle requesting an absurd 10000 °C target with a 500 °C-capable tip. -/
def hotInp : CycleInput := { c2Inp with target := 10000 }

/-- C7 witness: target 10000 with max-measurable 500 clamps to 450. -/
theorem clamped_target_witness : clampedTarget hotInp = 450 :=
  (clamped_target_min hotInp (by decide)).trans (by decide)

/-- C8: a cycle whose sample notification times out commits zero through
    `setTipPWM` and leaves every piece of persistent state — error history,
    runaway baseline and flag, pulse window, slew memory — exactly as it was. -/
theorem sampler_timeout_frame (cfg : Config) (inp : CycleInput) (s : PIDState)
    (h : inp.notified = false) :
    pidCycle cfg inp s = (s, [OutEvent.setTipPWM 0]) := by
  simp [pidCycle, h]

/-- The soldering cycle input with the notification timed out. -/
def timeoutInp : CycleInput := { c2Inp with notified := false }

/-- C8 witness: the timeout cycle concretely returns the untouched state. -/
theorem sampler_timeout_witness :
    pidCycle testCfg timeoutInp c2State = (c2State, [OutEvent.setTipPWM 0]) :=
  sampler_timeout_frame testCfg timeoutInp c2State rfl

/-- The output filter chain always emits exactly one commit followed by the
    watchdog reset. -/
theorem setOutput_trace (cfg : Config) (set : Settings) (supply : Int) (flag : Bool)
    (rawTemp now : Nat) (st : OutputState) (x : Int) :
    ∃ w, (setOutputx10WattsViaFilters cfg set supply flag rawTemp now st x).2 =
      [OutEvent.setTipX10Watts w, OutEvent.resetWatchdog] :=
  ⟨_, rfl⟩

/-- C9: the watchdog is reset exactly once per successful cycle, immediately
    after the final power commit, and never on the sampler-timeout path, which
    commits zero PWM without touching the watchdog. -/
theorem watchdog_only_after_commit (cfg : Config) (inp : CycleInput) (s : PIDState) :
    (inp.notified = true →
      ∃ w, (pidCycle cfg inp s).2 = [OutEvent.setTipX10Watts w, OutEvent.resetWatchdog]) ∧
    (inp.notified = false →
      (pidCycle cfg inp s).2 = [OutEvent.setTipPWM 0] ∧
      OutEvent.resetWatchdog ∉ (pidCycle cfg inp s).2) := by
  constructor
  · intro hn
    simp only [pidCycle, hn, if_true]
    exact setOutput_trace cfg inp.settings inp.powerSupplyWattageLimit _ inp.rawTemp inp.now
      s.out _
  · intro hn
    simp [pidCycle, hn]

/-- C9 witness: a concrete successful cycle ends in commit-then-watchdog. -/
theorem watchdog_only_after_commit_witness :
    ∃ w, (pidCycle testCfg c2Inp c2State).2 =
      [OutEvent.setTipX10Watts w, OutEvent.resetWatchdog] :=
  (watchdog_only_after_commit testCfg c2Inp c2State).1 rfl

/-- C10: with the slew limiter not compiled in, a negative request (keep-awake
    pulse off, ADC not saturated, runaway flag false, nonnegative supply
    limit) passes through every clamp stage unchanged and is committed
    negative — no stage floors at 0; with the slew block compiled in, the
    same request is committed nonnegative, since only that block floors at 0. -/
theorem negative_request_not_floored (cfg cfgS : Config) (set : Settings) (supply : Int)
    (rawTemp now : Nat) (st : OutputState) (x10 : Int)
    (hx : x10 < 0) (hpulse : set.KeepAwakePulse = 0) (hraw : rawTemp ≤ 0x7FFF - 32)
    (hsupply : 0 ≤ supply) (hs : cfg.SLEW_ENABLED = false) (hsS : cfgS.SLEW_ENABLED = true) :
    committedX10Watts
      (setOutputx10WattsViaFilters cfg set supply false rawTemp now st x10).2 = some x10 ∧
    ∃ w, committedX10Watts
      (setOutputx10WattsViaFilters cfgS set supply false rawTemp now st x10).2 = some w ∧
      0 ≤ w := by
  have hnp : applyPowerLimits set supply x10 = x10 :=
    applyPowerLimits_nonpos set supply x10 (le_of_lt hx) hsupply
  constructor
  · simp only [setOutputx10WattsViaFilters, pulseStage, hpulse, if_neg (not_lt.2 hraw),
      Bool.false_eq_true, if_false, ne_eq, not_true_eq_false, hnp, slewStage, hs]
    rfl
  · refine ⟨(slewStage cfgS st (applyPowerLimits set supply x10)).2, ?_, ?_⟩
    · simp only [setOutputx10WattsViaFilters, pulseStage, hpulse, if_neg (not_lt.2 hraw),
        Bool.false_eq_true, if_false, ne_eq, not_true_eq_false]
      rfl
    · exact slewStage_nonneg cfgS st _ hsS

/-- C10 witness: a −0.5 W request is committed as −0.5 W with the slew block
    absent, a genuinely negative commit. -/
theorem negative_request_witness :
    committedX10Watts (setOutputx10WattsViaFilters testCfg offSettings 0 false 0 0
      c2State.out (-5)).2 = some (-5) ∧ (-5 : Int) < 0 :=
  ⟨(negative_request_not_floored testCfg testCfgSlew offSettings 0 0 0 c2State.out (-5)
      (by decide) rfl (by decide) (by decide) rfl rfl).1, by decide⟩

end IronOS
